import Mathlib

/-!
Verification development for the playwright-based browser-automation tool server
(`src/toolHandler.ts` / `src/tools/browser/elementAnnotation.ts` and friends).

The development shallowly embeds the session-lifecycle manager (`ensureBrowser`,
`resetBrowserState`, `handleToolCall`), the close tool, the in-page annotation
scan, the index-based click tool, and the debounced re-scan trigger.

Modelling conventions:
* The mutable globals `browser`, `page`, `currentBrowserType`,
  `autoAnnotationEnabled` become the record `SessionState`, threaded explicitly.
* The browser engine outside the process becomes a `World`: which browser
  handles are connected and which pages are open.  Handles and page ids are
  allocated from a counter, so "the same handle" is id equality.
* Fallible engine primitives (launch, newContext, newPage, attaching scripts)
  succeed or throw according to an `EnsureEnv` of Booleans; a thrown playwright
  error carries the environment-chosen message `errMsg`.
* Side effects that the claims talk about (closing a browser, launching,
  opening a page, removing overlays, dispatching a mouse click, running a DOM
  scan) are recorded in an `Action` trace.
-/

namespace PwSec

/-! ### String containment, as used by `errorMessage.includes(...)` -/

/-- Does the needle occur as a prefix of the haystack (both as char lists)? -/
def prefixMatch : List Char → List Char → Bool
  | [], _ => true
  | _ :: _, [] => false
  | c :: cs, d :: ds => c == d && prefixMatch cs ds

/-- Does the needle occur anywhere inside the haystack (char lists)? -/
def hasSubList (n : List Char) : List Char → Bool
  | [] => n.isEmpty
  | c :: t => prefixMatch n (c :: t) || hasSubList n t

/-- JavaScript `hay.includes(needle)`. -/
def containsSub (hay needle : String) : Bool :=
  hasSubList needle.data hay.data

/-! ### Session store (the module-level globals of `toolHandler.ts`) -/

/-- The engine variant: `'chromium' | 'firefox' | 'webkit'`. -/
inductive BrowserType where
  | chromium
  | firefox
  | webkit
  deriving DecidableEq, Repr

/-- The mutable globals `browser`, `page`, `currentBrowserType`,
`autoAnnotationEnabled` of `toolHandler.ts` (browser/page as handle ids). -/
structure SessionState where
  browser : Option Nat
  page : Option Nat
  currentBrowserType : BrowserType
  autoAnnotationEnabled : Bool
  deriving DecidableEq, Repr

/-- `resetBrowserState()`: `browser = undefined; page = undefined;
currentBrowserType = 'chromium'`.  The source function makes no engine calls
(in particular it closes nothing) and does not touch `autoAnnotationEnabled`,
so it is modelled as a pure function on the session record that leaves the
`World` untouched by construction. -/
def resetBrowserState (st : SessionState) : SessionState :=
  { browser := none
    page := none
    currentBrowserType := BrowserType.chromium
    autoAnnotationEnabled := st.autoAnnotationEnabled }

/-- The state of the browser engine outside the process: which browser handles
report `isConnected()`, which pages are open (`!isClosed()`), with the browser
that owns each page; `nextId` feeds fresh handle/page ids. -/
structure World where
  nextId : Nat
  connected : List Nat
  openPages : List (Nat × Nat)
  deriving DecidableEq, Repr

/-- `browser.isConnected()`. -/
def isConnectedW (w : World) (h : Nat) : Bool :=
  h ∈ w.connected

/-- `page.isClosed()`. -/
def pageClosedW (w : World) (p : Nat) : Bool :=
  ! decide (p ∈ w.openPages.map Prod.fst)

/-- `browser.close()`: the handle stops reporting connected and the pages it
owns are closed.  Close errors are swallowed at every call site in the source,
so closing is modelled as always succeeding. -/
def closeBrowserW (w : World) (h : Nat) : World :=
  { w with connected := w.connected.erase h
           openPages := w.openPages.filter (fun pr => pr.2 ≠ h) }

/-- `browserInstance.launch(...)` succeeding: a fresh connected handle. -/
def launchW (w : World) : Nat × World :=
  (w.nextId, { w with nextId := w.nextId + 1, connected := w.nextId :: w.connected })

/-- `context.newPage()` succeeding: a fresh open page owned by `h`. -/
def newPageW (w : World) (h : Nat) : Nat × World :=
  (w.nextId, { w with nextId := w.nextId + 1, openPages := (w.nextId, h) :: w.openPages })

/-- Engine-visible effects recorded while the model runs. -/
inductive Action where
  | closeBrowser (h : Nat)
  | launchAttempt (bt : BrowserType)
  | launched (h : Nat) (bt : BrowserType)
  | newPage (p : Nat)
  | scanPage
  | removeOverlays
  | mouseClick (x y : ℚ)
  deriving DecidableEq, Repr

/-- The per-call `BrowserSettings`.  Viewport, user agent, headless flag and
proxy are passed through to `launch`/`newContext` without affecting control
flow, so only the engine variant is retained. -/
structure BrowserSettings where
  browserType : BrowserType
  deriving DecidableEq, Repr

/-- Outcomes of the fallible engine primitives during one `ensureBrowser`
call.  `launch1Ok`/`setup1Ok` govern the first attempt's launch and its
context/page/attachment block, `freshPageOk` the "page is closed or missing"
re-open block, and `launch2Ok`/`ctx2Ok`/`attach2Ok` the retry's launch, its
`newContext` (before the page is assigned) and its post-`newPage` attachments.
`errMsg` is the message of whichever retry step throws. -/
structure EnsureEnv where
  launch1Ok : Bool
  setup1Ok : Bool
  freshPageOk : Bool
  launch2Ok : Bool
  ctx2Ok : Bool
  attach2Ok : Bool
  errMsg : String
  deriving DecidableEq, Repr

deriving instance DecidableEq for Except

/-- Result of `ensureBrowser`: the returned page or the propagated error,
the session and world afterwards, and the trace of engine effects. -/
structure EnsureOut where
  res : Except String Nat
  st : SessionState
  world : World
  acts : List Action
  deriving DecidableEq, Repr

/-- The `catch` block of `ensureBrowser` (toolHandler.ts lines 1103–1181):
best-effort close of any stored browser, `resetBrowserState()`, then one
retry of the whole launch sequence; a failure inside the retry propagates
to the caller as `Except.error`. -/
def ensureCatch (env : EnsureEnv) (settings : BrowserSettings)
    (st : SessionState) (w : World) (acts : List Action) : EnsureOut :=
  -- `if (browser) await browser.close().catch(() => {})`
  let cw := match st.browser with
    | some h => (closeBrowserW w h, acts ++ [Action.closeBrowser h])
    | none => (w, acts)
  let w := cw.1
  let acts := cw.2
  -- `resetBrowserState()`
  let st := resetBrowserState st
  -- `browser = await browserInstance.launch({ headless, ...proxy })`
  let acts := acts ++ [Action.launchAttempt settings.browserType]
  if !env.launch2Ok then ⟨Except.error env.errMsg, st, w, acts⟩
  else
    let hw := launchW w
    let h2 := hw.1
    let w := hw.2
    let acts := acts ++ [Action.launched h2 settings.browserType]
    -- `currentBrowserType = browserType` (set after the launch succeeds)
    let st := { st with browser := some h2, currentBrowserType := settings.browserType }
    -- `const context = await browser.newContext({...})` + `context.on('page', ...)`
    if !env.ctx2Ok then ⟨Except.error env.errMsg, st, w, acts⟩
    else
      -- `page = await context.newPage()`
      let pw := newPageW w h2
      let p2 := pw.1
      let w := pw.2
      let acts := acts ++ [Action.newPage p2]
      let st := { st with page := some p2 }
      -- `registerConsoleMessage(page)` + `setupAutoAnnotation(page)`
      if !env.attach2Ok then ⟨Except.error env.errMsg, st, w, acts⟩
      else ⟨Except.ok p2, st, w, acts⟩

/-- Lines 1087–1102 of `ensureBrowser`: `if (!page || page.isClosed())`
open a fresh page in the existing browser, then `return page!`.  A failure
while re-opening (including `browser` being `undefined`, which in the source
raises a TypeError at `browser.contexts()`) lands in the `catch` block. -/
def checkPage (env : EnsureEnv) (settings : BrowserSettings)
    (st : SessionState) (w : World) (acts : List Action) : EnsureOut :=
  let reopen : Unit → EnsureOut := fun _ =>
    match st.browser with
    | none => ensureCatch env settings st w acts
    | some h =>
      if !env.freshPageOk then ensureCatch env settings st w acts
      else
        let pw := newPageW w h
        let p := pw.1
        let w := pw.2
        ⟨Except.ok p, { st with page := some p }, w, acts ++ [Action.newPage p]⟩
  match st.page with
  | some p => if pageClosedW w p then reopen () else ⟨Except.ok p, st, w, acts⟩
  | none => reopen ()

/-- The body of `if (!browser)` in `ensureBrowser` (toolHandler.ts lines
1002–1084): the variant-change guard (transcribed verbatim — inside
`if (!browser)` its `browser && ...` test can never hold), the launch, the
context/page creation with listeners and auto-annotation attachments, then
the page-validity check.  Any exception lands in `ensureCatch`. -/
def launchNew (env : EnsureEnv) (settings : BrowserSettings)
    (st : SessionState) (w : World) (acts : List Action) : EnsureOut :=
  -- lines 1006–1013: `if (browser && currentBrowserType !== browserType)`
  let sw2 : SessionState × World × List Action :=
    match st.browser with
    | some h =>
      if st.currentBrowserType ≠ settings.browserType then
        (resetBrowserState st, closeBrowserW w h, acts ++ [Action.closeBrowser h])
      else (st, w, acts)
    | none => (st, w, acts)
  let st := sw2.1
  let w := sw2.2.1
  let acts := sw2.2.2
  -- lines 1034–1038: `browser = await browserInstance.launch(...)`
  let acts := acts ++ [Action.launchAttempt settings.browserType]
  if !env.launch1Ok then ensureCatch env settings st w acts
  else
    let hw := launchW w
    let h := hw.1
    let w := hw.2
    let acts := acts ++ [Action.launched h settings.browserType]
    -- line 1040: `currentBrowserType = browserType`
    let st := { st with browser := some h, currentBrowserType := settings.browserType }
    -- lines 1043–1083: disconnect listener, newContext, page listener,
    -- `page = await context.newPage()`, console forwarding, auto-annotation
    if !env.setup1Ok then ensureCatch env settings st w acts
    else
      let pw := newPageW w h
      let p := pw.1
      let w := pw.2
      let acts := acts ++ [Action.newPage p]
      let st := { st with page := some p }
      checkPage env settings st w acts

/-- `ensureBrowser(browserSettings?)` (toolHandler.ts lines 987–1182).
Mirrors the source: clean up a disconnected handle; if no browser is stored,
launch a fresh browser, context and page (`launchNew`); re-open the page if
it is closed or missing (`checkPage`); on any exception fall into
`ensureCatch`. -/
def ensureBrowser (env : EnsureEnv) (settings : BrowserSettings)
    (st : SessionState) (w : World) : EnsureOut :=
  -- lines 990–999: `if (browser && !browser.isConnected())` → close + reset
  let sw : SessionState × World × List Action :=
    match st.browser with
    | some h =>
      if !isConnectedW w h then
        (resetBrowserState st, closeBrowserW w h, [Action.closeBrowser h])
      else (st, w, [])
    | none => (st, w, [])
  let st := sw.1
  let w := sw.2.1
  let acts := sw.2.2
  -- line 1002: `if (!browser)`
  if st.browser = none then
    launchNew env settings st w acts
  else
    checkPage env settings st w acts

/-! ### Tool dispatcher (`handleToolCall`, toolHandler.ts lines 1241–1490) -/

/-- `BROWSER_TOOLS` from `tools.ts` (lines 315–338). -/
def BROWSER_TOOLS : List String :=
  [ "playwright_navigate"
  , "playwright_screenshot"
  , "playwright_click"
  , "playwright_iframe_click"
  , "playwright_iframe_fill"
  , "playwright_fill_by_index"
  , "playwright_select"
  , "playwright_hover"
  , "playwright_evaluate"
  , "playwright_close"
  , "playwright_expect_response"
  , "playwright_custom_user_agent"
  , "playwright_get_visible_text"
  , "playwright_get_visible_html"
  , "playwright_go_back"
  , "playwright_go_forward"
  , "playwright_drag"
  , "playwright_press_key"
  , "playwright_annotate"
  , "playwright_click_by_index"
  , "playwright_set_auto_annotation"
  , "playwright_get_annotated_elements" ]

/-- The connection-loss pattern match of the dispatcher's catch block
(toolHandler.ts lines 1463–1469). -/
def matchesConnLoss (msg : String) : Bool :=
  containsSub msg "Target page, context or browser has been closed"
  || containsSub msg "Browser has been disconnected"
  || containsSub msg "Target closed"
  || containsSub msg "Protocol error"
  || containsSub msg "Connection closed"

/-- A `CallToolResult`, reduced to the text of its single content block and
the `isError` flag. -/
structure ToolResult where
  text : String
  isError : Bool
  deriving DecidableEq, Repr

/-- The argument fields of a tool call that the dispatcher itself reads:
`args.browserType || 'chromium'` (already defaulted here) and `args.enabled`
for `playwright_set_auto_annotation`. -/
structure ToolArgs where
  browserType : BrowserType
  enabled : Bool
  deriving DecidableEq, Repr

/-- Environment for one dispatched call: the engine outcomes for the
acquisition phase, and the routed handler's outcome — either a returned
result (with its `isError` flag and text) or a thrown error message.
Handlers are one-shot calls into the already-open page; in this model they
do not mutate the session or the world (the inline
`playwright_set_auto_annotation` case, which flips the flag, is modelled
explicitly in the dispatcher). -/
structure CallEnv where
  ensure : EnsureEnv
  handlerOutcome : Except String Bool
  handlerText : String
  deriving DecidableEq, Repr

/-- Result of one dispatched call. -/
structure CallOut where
  result : ToolResult
  st : SessionState
  world : World
  acts : List Action
  deriving DecidableEq, Repr

/-- `browserSettings` as built at toolHandler.ts lines 1297–1306. -/
def settingsOfArgs (args : ToolArgs) : BrowserSettings :=
  { browserType := args.browserType }

/-- Lines 1280–1288 of `handleToolCall`: close and reset a stored browser
that no longer reports connected, before a browser tool executes. -/
def preCleanup (name : String) (st : SessionState) (w : World) :
    SessionState × World × List Action :=
  match st.browser with
  | some h =>
    if !isConnectedW w h && BROWSER_TOOLS.contains name then
      (resetBrowserState st, closeBrowserW w h, [Action.closeBrowser h])
    else (st, w, [])
  | none => (st, w, [])

/-- The routed handler plus the dispatcher's catch block (toolHandler.ts
lines 1324–1489): the inline `playwright_set_auto_annotation` case flips the
flag and reports success; any other handler returns its result, and a thrown
error is classified — for a browser tool whose message matches the
connection-loss patterns the session is reset and a retryable error returned,
otherwise the raw message comes back as the error result. -/
def runHandler (env : CallEnv) (name : String)
    (args : ToolArgs) (st : SessionState) (w : World) (acts : List Action) : CallOut :=
  if name = "playwright_set_auto_annotation" then
    { result := ⟨"Auto-annotation " ++ (if args.enabled then "enabled" else "disabled"), false⟩
      st := { st with autoAnnotationEnabled := args.enabled }
      world := w
      acts := acts }
  else
    match env.handlerOutcome with
    | Except.ok isErr => { result := ⟨env.handlerText, isErr⟩, st := st, world := w, acts := acts }
    | Except.error msg =>
      if BROWSER_TOOLS.contains name && matchesConnLoss msg then
        { result := ⟨"Browser connection error: " ++ msg
                      ++ ". Browser state has been reset, please try again.", true⟩
          st := resetBrowserState st
          world := w
          acts := acts }
      else
        { result := ⟨msg, true⟩, st := st, world := w, acts := acts }

/-- `handleToolCall(name, args, server)` (toolHandler.ts lines 1241–1490):
the `playwright_close` special case, the pre-execution cleanup of a
disconnected browser, browser acquisition for browser tools (acquisition
failure becomes a structured `isError` result), then the routed handler with
error classification. -/
def handleToolCall (env : CallEnv) (name : String)
    (args : ToolArgs) (st : SessionState) (w : World) : CallOut :=
  -- lines 1251–1277: special case for browser close so it always works
  if name = "playwright_close" then
    match st.browser with
    | some h =>
      let ww : World × List Action :=
        if isConnectedW w h then (closeBrowserW w h, [Action.closeBrowser h]) else (w, [])
      { result := ⟨"Browser closed successfully", false⟩
        st := resetBrowserState st
        world := ww.1
        acts := ww.2 }
    | none =>
      { result := ⟨"No browser instance to close", false⟩, st := st, world := w, acts := [] }
  else
    -- lines 1280–1288: cleanup of a disconnected browser before execution
    let sw := preCleanup name st w
    let st := sw.1
    let w := sw.2.1
    let acts := sw.2.2
    -- lines 1296–1321: acquire the page for browser tools
    if BROWSER_TOOLS.contains name then
      let eo := ensureBrowser env.ensure (settingsOfArgs args) st w
      match eo.res with
      | Except.error e =>
        { result := ⟨"Failed to initialize browser: " ++ e ++ ". Please try again.", true⟩
          st := eo.st
          world := eo.world
          acts := acts ++ eo.acts }
      | Except.ok _ => runHandler env name args eo.st eo.world (acts ++ eo.acts)
    else
      runHandler env name args st w acts

/-- `CloseBrowserTool.execute` (`navigation.ts`): the same close discipline
as the dispatcher's special case, acting on `context.browser`.  Takes the
stored session (for `resetBrowserState`) and the context's browser handle. -/
def closeBrowserToolExec (st : SessionState) (w : World)
    (ctxBrowser : Option Nat) : ToolResult × SessionState × World × List Action :=
  match ctxBrowser with
  | some h =>
    if isConnectedW w h then
      (⟨"Browser closed successfully", false⟩, resetBrowserState st,
        closeBrowserW w h, [Action.closeBrowser h])
    else
      (⟨"Browser closed successfully", false⟩, resetBrowserState st, w, [])
  | none => (⟨"No browser instance to close", false⟩, st, w, [])

/-! ### Session consistency -/

/-- The stored page is non-null and open, backed by a connected stored
browser. -/
def consistentB (st : SessionState) (w : World) : Bool :=
  match st.browser, st.page with
  | some h, some p => isConnectedW w h && !pageClosedW w p
  | _, _ => false

/-- All session fields cleared: no browser, no page, engine variant back at
the `'chromium'` default. -/
def clearedB (st : SessionState) : Bool :=
  st.browser = none && st.page = none && st.currentBrowserType = BrowserType.chromium

/-- The half-populated state a doubly-failed acquisition can leave behind: a
connected browser stored with no page. -/
def launchedNoPageB (st : SessionState) (w : World) : Bool :=
  match st.browser, st.page with
  | some h, none => isConnectedW w h
  | _, _ => false

/-- The session states observable at call boundaries. -/
def sessionOK (st : SessionState) (w : World) : Bool :=
  consistentB st w || clearedB st || launchedNoPageB st w

/-- Is this trace entry the start of a launch attempt? -/
def isLaunchAttemptA : Action → Bool
  | Action.launchAttempt _ => true
  | _ => false

/-! ### In-page annotation scan (`elementAnnotation.ts`)

The injected scripts (`getAutoAnnotationInitScript` lines 46–368 and
`getAnnotationScript` lines 373–630) run the same scan.  A candidate element
(already collected by the selector list / cursor:pointer walk) is modelled by
the DOM facts the scan reads. -/

/-- `element.getBoundingClientRect()` (viewport coordinates). -/
structure Rect where
  left : ℚ
  top : ℚ
  width : ℚ
  height : ℚ
  deriving DecidableEq, Repr

/-- `rect.right = rect.left + rect.width`. -/
def Rect.right (r : Rect) : ℚ := r.left + r.width

/-- `rect.bottom = rect.top + rect.height`. -/
def Rect.bottom (r : Rect) : ℚ := r.top + r.height

/-- `window.innerWidth` / `window.innerHeight`. -/
structure Viewport where
  innerWidth : ℚ
  innerHeight : ℚ
  deriving DecidableEq, Repr

/-- A candidate DOM element as the scan sees it. -/
structure DomElement where
  tagName : String
  attributes : List (String × String)
  classes : List String
  idAttr : String
  value : String
  placeholder : String
  innerText : String
  textContent : String
  rect : Rect
  display : String
  visibility : String
  opacity : String
  deriving DecidableEq, Repr

/-- `element.getAttribute(n)` (`none` for a missing attribute). -/
def getAttr (e : DomElement) (n : String) : Option String :=
  (e.attributes.find? (fun pr => pr.1 == n)).map (fun pr => pr.2)

/-- "Skip hidden elements": `rect.width === 0 || rect.height === 0 ||
display === 'none' || visibility === 'hidden' || opacity === '0'`. -/
def hiddenSkip (e : DomElement) : Bool :=
  e.rect.width = 0 || e.rect.height = 0 || e.display = "none"
  || e.visibility = "hidden" || e.opacity = "0"

/-- "Skip elements outside viewport": `rect.bottom < 0 || rect.top >
innerHeight || rect.right < 0 || rect.left > innerWidth`. -/
def outsideSkip (vp : Viewport) (e : DomElement) : Bool :=
  e.rect.bottom < 0 || e.rect.top > vp.innerHeight
  || e.rect.right < 0 || e.rect.left > vp.innerWidth

/-- "Skip very small elements": `rect.width < 10 || rect.height < 10`. -/
def smallSkip (e : DomElement) : Bool :=
  e.rect.width < 10 || e.rect.height < 10

/-- The scan's whole exclusion test, in source order. -/
def skipElement (vp : Viewport) (e : DomElement) : Bool :=
  hiddenSkip e || outsideSkip vp e || smallSkip e

/-- "Determine element type" (elementAnnotation.ts lines 207–224 and
523–539). -/
def classify (e : DomElement) : String :=
  if e.tagName = "a" then "link"
  else if e.tagName = "button" || getAttr e "role" = some "button" then "button"
  else if e.tagName = "input" then
    let inputType := match getAttr e "type" with
      | some t => if t = "" then "text" else t   -- `getAttribute('type') || 'text'`
      | none => "text"
    if inputType = "submit" || inputType = "button" then "submit"
    else if inputType = "checkbox" then "checkbox"
    else if inputType = "radio" then "radio"
    else if inputType = "file" then "file"
    else "input"
  else if e.tagName = "select" then "select"
  else if e.tagName = "textarea" then "textarea"
  else if e.tagName = "form" then "form"
  else "clickable"

/-- The classification the spec's words describe — "using tag name, role
attribute, and `input` type attribute, in that priority order": the tag is
consulted first, and the role attribute only for elements whose tag
classifies nothing.  Written for comparison with `classify`, which is the
source's order. -/
def specClassifyTagFirst (e : DomElement) : String :=
  if e.tagName = "a" then "link"
  else if e.tagName = "button" then "button"
  else if e.tagName = "input" then
    let inputType := match getAttr e "type" with
      | some t => if t = "" then "text" else t
      | none => "text"
    if inputType = "submit" || inputType = "button" then "submit"
    else if inputType = "checkbox" then "checkbox"
    else if inputType = "radio" then "radio"
    else if inputType = "file" then "file"
    else "input"
  else if e.tagName = "select" then "select"
  else if e.tagName = "textarea" then "textarea"
  else if e.tagName = "form" then "form"
  else if getAttr e "role" = some "button" then "button"
  else "clickable"

/-- "Build selector": id if present, else tag plus up to two classes. -/
def selectorOf (e : DomElement) : String :=
  if e.idAttr ≠ "" then "#" ++ e.idAttr
  else
    let cs := String.intercalate "." (e.classes.take 2)
    if cs = "" then e.tagName else e.tagName ++ "." ++ cs

/-- "Get text content": `value || placeholder` for input/textarea, else
`innerText || textContent` (empty string standing for the falsy cases). -/
def textOf (e : DomElement) : String :=
  if e.tagName = "input" || e.tagName = "textarea" then
    (if e.value ≠ "" then e.value else e.placeholder)
  else
    (if e.innerText ≠ "" then e.innerText else e.textContent)

/-- The fixed attribute allowlist of the scan. -/
def attrAllowlist : List String :=
  ["href", "type", "name", "placeholder", "value", "role", "aria-label"]

/-- "Collect attributes": the allowlisted attributes the element has. -/
def attrsOf (e : DomElement) : List (String × String) :=
  attrAllowlist.filterMap (fun a => (getAttr e a).map (fun v => (a, v)))

/-- JavaScript `Math.round`: half-integers round toward positive infinity. -/
def jsRound (q : ℚ) : Int := ⌊q + 1 / 2⌋

/-- JavaScript `s.trim()`: strip whitespace from both ends. -/
def jsTrim (s : String) : String :=
  ⟨((s.data.dropWhile Char.isWhitespace).reverse.dropWhile Char.isWhitespace).reverse⟩

/-- JavaScript `s.substring(0, n)`. -/
def jsSubstringTake (s : String) (n : Nat) : String :=
  ⟨s.data.take n⟩

/-- The recorded `boundingBox` (`Math.round` applied to each side). -/
structure BoundingBox where
  x : Int
  y : Int
  width : Int
  height : Int
  deriving DecidableEq, Repr

/-- One entry of the scan result / page-global cache. -/
structure AnnotatedElement where
  index : Int
  type : String
  tagName : String
  text : String
  selector : String
  boundingBox : BoundingBox
  attributes : List (String × String)
  deriving DecidableEq, Repr

/-- The record pushed for a surviving element at position `idx`. -/
def toAnnotated (e : DomElement) (idx : Nat) : AnnotatedElement :=
  { index := (idx : Int)
    type := classify e
    tagName := e.tagName
    text := jsSubstringTake (jsTrim (textOf e)) 100
    selector := selectorOf e
    boundingBox :=
      { x := jsRound e.rect.left
        y := jsRound e.rect.top
        width := jsRound e.rect.width
        height := jsRound e.rect.height }
    attributes := attrsOf e }

/-- The scan loop: sequential indices are assigned to surviving elements in
collection order; skipped elements consume no index. -/
def annotateGo (vp : Viewport) : List DomElement → Nat → List AnnotatedElement
  | [], _ => []
  | e :: rest, idx =>
    if skipElement vp e then annotateGo vp rest idx
    else toAnnotated e idx :: annotateGo vp rest (idx + 1)

/-- One annotation pass (`annotateElements` in the injected script) over the
collected candidates. -/
def annotateElements (vp : Viewport) (candidates : List DomElement) : List AnnotatedElement :=
  annotateGo vp candidates 0

/-! ### `ClickByIndexTool.execute` (elementAnnotation.ts lines 696–739) -/

/-- `ClickByIndexTool.execute` after the numeric-argument guard: read the
page-global cache; scan only if it is empty; look up the index; on a miss
report the valid range without clicking; on a hit remove the overlay nodes
and then click at the element's bounding-box center. -/
def clickByIndexExec (cache scanResult : List AnnotatedElement) (idx : Int) :
    ToolResult × List Action :=
  let ea : List AnnotatedElement × List Action :=
    if cache.length = 0 then (scanResult, [Action.scanPage]) else (cache, [])
  let elements := ea.1
  let acts := ea.2
  match elements.find? (fun el => el.index == idx) with
  | none =>
    (⟨"Element with index " ++ toString idx ++ " not found. Available indices: 0-"
        ++ toString ((elements.length : Int) - 1), true⟩, acts)
  | some el =>
    let centerX : ℚ := (el.boundingBox.x : ℚ) + (el.boundingBox.width : ℚ) / 2
    let centerY : ℚ := (el.boundingBox.y : ℚ) + (el.boundingBox.height : ℚ) / 2
    (⟨"Clicked element [" ++ toString idx ++ "] (" ++ el.type ++ ") at ("
        ++ toString (jsRound centerX) ++ ", " ++ toString (jsRound centerY) ++ ")", false⟩,
      acts ++ [Action.removeOverlays, Action.mouseClick centerX centerY])

/-! ### Debounced re-scan trigger (elementAnnotation.ts lines 317–349)

`debouncedAnnotate` keeps a single timer slot: `clearTimeout(debounceTimer);
debounceTimer = setTimeout(annotateElements, 200)`.  The slot is an
`Option Nat` holding the scheduled firing time; arming drops whatever was
pending and schedules anew. -/

/-- The fixed debounce delay (milliseconds). -/
def debounceDelay : Nat := 200

/-- `debouncedAnnotate` acting on the timer slot at time `now`. -/
def armDebounce (_pending : Option Nat) (now : Nat) : Option Nat :=
  some (now + debounceDelay)

/-- Run a time-ordered burst of trigger events against the timer slot and
count how many re-scans actually fire: a pending timer fires iff its time
arrives before the next trigger re-arms the slot, and a timer still pending
after the last event fires once the burst is over. -/
def runTriggers : List Nat → Option Nat → Nat
  | [], none => 0
  | [], some _ => 1
  | t :: ts, pending =>
    (match pending with
      | some ft => if ft ≤ t then 1 else 0
      | none => 0) + runTriggers ts (armDebounce pending t)

/-! ## Theorems -/

/-- C10: for every prior session state, `resetBrowserState` sets the browser
handle and the page to `undefined` and puts the engine variant back at the
`'chromium'` default (rather than preserving the previous variant), while
leaving `autoAnnotationEnabled` unchanged.  The source function performs no
engine call, so it is a pure session update in this model: in particular no
browser or page close happens and the `World` is untouched by construction. -/
theorem claim_C10_reset_browser_state (st : SessionState) :
    resetBrowserState st =
      { browser := none, page := none, currentBrowserType := BrowserType.chromium,
        autoAnnotationEnabled := st.autoAnnotationEnabled } :=
  rfl

/-- C1, evaluated at the failing input: starting from a connected
chromium-backed session (browser handle 0, open page 1), a call requesting
the `firefox` engine variant returns the very same page backed by the same
browser handle, performs no close and no launch, and leaves the recorded
variant at `chromium` — the variant-change teardown guard of `ensureBrowser`
sits inside `if (!browser)` and can never fire.  The second conjunct records
the claim's correct half: a same-variant repeat call reuses the same handle
and page unchanged. -/
theorem claim_C1_variant_teardown_dead :
    ensureBrowser ⟨true, true, true, true, true, true, "e"⟩ ⟨BrowserType.firefox⟩
        ⟨some 0, some 1, BrowserType.chromium, true⟩ ⟨2, [0], [(1, 0)]⟩ =
      ⟨Except.ok 1, ⟨some 0, some 1, BrowserType.chromium, true⟩, ⟨2, [0], [(1, 0)]⟩, []⟩
    ∧ ensureBrowser ⟨true, true, true, true, true, true, "e"⟩ ⟨BrowserType.chromium⟩
        ⟨some 0, some 1, BrowserType.chromium, true⟩ ⟨2, [0], [(1, 0)]⟩ =
      ⟨Except.ok 1, ⟨some 0, some 1, BrowserType.chromium, true⟩, ⟨2, [0], [(1, 0)]⟩, []⟩ :=
  ⟨rfl, rfl⟩

/-- C5: for every session state, the close tool returns a success result
(`isError = false`); it closes the underlying browser exactly when the
handle reports connected, clears all session fields whenever a browser
handle existed, leaves everything untouched and still reports success when
there is no browser instance; and `CloseBrowserTool.execute` follows the
same discipline. -/
theorem claim_C5_close_always_succeeds (env : CallEnv) (args : ToolArgs)
    (st : SessionState) (w : World) :
    (handleToolCall env "playwright_close" args st w).result.isError = false
    ∧ (handleToolCall env "playwright_close" args st w).acts =
        (match st.browser with
          | some h => if isConnectedW w h then [Action.closeBrowser h] else []
          | none => [])
    ∧ (handleToolCall env "playwright_close" args st w).st =
        (match st.browser with
          | some _ => resetBrowserState st
          | none => st)
    ∧ (handleToolCall env "playwright_close" args st w).result.text =
        (match st.browser with
          | some _ => "Browser closed successfully"
          | none => "No browser instance to close")
    ∧ closeBrowserToolExec st w st.browser =
        (match st.browser with
          | some h =>
            (⟨"Browser closed successfully", false⟩, resetBrowserState st,
              if isConnectedW w h then closeBrowserW w h else w,
              if isConnectedW w h then [Action.closeBrowser h] else [])
          | none => (⟨"No browser instance to close", false⟩, st, w, [])) := by
  cases hb : st.browser with
  | none => simp [handleToolCall, closeBrowserToolExec, hb]
  | some h =>
    by_cases hc : isConnectedW w h <;>
      simp [handleToolCall, closeBrowserToolExec, hb, hc]

/-- C6, refuted as stated: with a cached element whose bounding box is
`{x 0, y 0, width 11, height 11}`, `clickByIndex 0` removes the overlays and
then dispatches the click at `(11/2, 11/2)` — the exact center
`x + width/2`, which is not the rounded center the claim describes (only the
success message rounds). -/
theorem claim_C6_center_not_rounded :
    (clickByIndexExec [⟨0, "button", "button", "Go", "button", ⟨0, 0, 11, 11⟩, []⟩] [] 0).2 =
      [Action.removeOverlays, Action.mouseClick (11 / 2 : ℚ) (11 / 2 : ℚ)]
    ∧ (11 / 2 : ℚ) ≠ ((jsRound (11 / 2 : ℚ) : ℤ) : ℚ) := by
  constructor
  · norm_num [clickByIndexExec, List.find?]
  · have h6 : jsRound (11 / 2 : ℚ) = 6 := by
      rw [jsRound]
      norm_num
    rw [h6]
    norm_num

/-- C6 (amended): `clickByIndex` reads the page-global cached list and
triggers a fresh scan exactly when that cache is empty; if the requested
index is absent from the resulting list of N elements it returns an error
result naming the valid range `0-(N-1)` and dispatches neither an
overlay-removal nor a click; if the index is present it removes the overlay
nodes first and then dispatches a single mouse click at the exact center
`(boundingBox.x + width/2, boundingBox.y + height/2)` of the element's
recorded bounding box — a half-integral point when width or height is odd;
only the success message reports rounded coordinates. -/
theorem claim_C6_click_by_index (cache scanResult : List AnnotatedElement) (idx : Int) :
    (Action.scanPage ∈ (clickByIndexExec cache scanResult idx).2 ↔ cache.length = 0)
    ∧ ((if cache.length = 0 then scanResult else cache).find? (fun el => el.index == idx)
          = none →
        (clickByIndexExec cache scanResult idx).1.isError = true
        ∧ (clickByIndexExec cache scanResult idx).1.text =
            "Element with index " ++ toString idx ++ " not found. Available indices: 0-"
              ++ toString (((if cache.length = 0 then scanResult else cache).length : Int) - 1)
        ∧ (clickByIndexExec cache scanResult idx).2 =
            (if cache.length = 0 then [Action.scanPage] else []))
    ∧ (match (if cache.length = 0 then scanResult else cache).find?
          (fun el => el.index == idx) with
        | some el =>
          (clickByIndexExec cache scanResult idx).1.isError = false
          ∧ (clickByIndexExec cache scanResult idx).2 =
              (if cache.length = 0 then [Action.scanPage] else [])
                ++ [Action.removeOverlays,
                    Action.mouseClick ((el.boundingBox.x : ℚ) + (el.boundingBox.width : ℚ) / 2)
                      ((el.boundingBox.y : ℚ) + (el.boundingBox.height : ℚ) / 2)]
        | none => True) := by
  by_cases hc : cache.length = 0
  · cases hf : scanResult.find? (fun el => el.index == idx) with
    | none => simp [clickByIndexExec, hc, hf]
    | some el => simp [clickByIndexExec, hc, hf]
  · cases hf : cache.find? (fun el => el.index == idx) with
    | none => simp [clickByIndexExec, hc, hf]
    | some el => simp [clickByIndexExec, hc, hf]

/-- An element satisfying any of the claim's exclusion conditions fails the
scan's combined skip test. -/
theorem skipElement_of_excluded (vp : Viewport) (e : DomElement)
    (hx : e.rect.width = 0 ∨ e.rect.height = 0 ∨ e.display = "none"
      ∨ e.visibility = "hidden" ∨ e.opacity = "0"
      ∨ e.rect.bottom < 0 ∨ e.rect.top > vp.innerHeight
      ∨ e.rect.right < 0 ∨ e.rect.left > vp.innerWidth
      ∨ e.rect.width < 10 ∨ e.rect.height < 10) :
    skipElement vp e = true := by
  simp only [skipElement, hiddenSkip, outsideSkip, smallSkip, Bool.or_eq_true,
    decide_eq_true_eq]
  tauto

/-- Removing a skipped candidate from the collection leaves the scan's output
unchanged, whatever index the loop has reached. -/
theorem annotateGo_erase_skipped (vp : Viewport) (e : DomElement)
    (hskip : skipElement vp e = true) :
    ∀ (l : List DomElement) (idx : Nat), e ∈ l →
      annotateGo vp l idx = annotateGo vp (l.erase e) idx := by
  intro l
  induction l with
  | nil => intro idx h; simp at h
  | cons c t ih =>
    intro idx hmem
    by_cases hce : c = e
    · subst hce
      rw [List.erase_cons_head]
      simp [annotateGo, hskip]
    · have het : e ∈ t := by
        rcases List.mem_cons.mp hmem with h | h
        · exact absurd h.symm hce
        · exact h
      rw [List.erase_cons_tail (by simp [hce])]
      by_cases hsc : skipElement vp c = true
      · simpa [annotateGo, hsc] using ih idx het
      · simpa [annotateGo, hsc] using ih (idx + 1) het

/-- C7: an annotation pass excludes every candidate with zero rendered width
or height, `display:none`, `visibility:hidden`, opacity `'0'`, lying entirely
outside the viewport, or smaller than 10×10 pixels — removing such a
candidate from the collection does not change the scan result — and on a page
whose candidates are one visible 50×20 button, one `display:none` link and
one 5×5 span with an onclick attribute, the scan yields exactly one
`AnnotatedElement`: the button, with type `"button"` and index 0. -/
theorem claim_C7_scan_exclusions :
    (∀ (vp : Viewport) (cands : List DomElement) (e : DomElement),
        e ∈ cands →
        (e.rect.width = 0 ∨ e.rect.height = 0 ∨ e.display = "none"
          ∨ e.visibility = "hidden" ∨ e.opacity = "0"
          ∨ e.rect.bottom < 0 ∨ e.rect.top > vp.innerHeight
          ∨ e.rect.right < 0 ∨ e.rect.left > vp.innerWidth
          ∨ e.rect.width < 10 ∨ e.rect.height < 10) →
        annotateElements vp cands = annotateElements vp (cands.erase e))
    ∧ annotateElements ⟨1280, 720⟩
        [⟨"button", [], [], "", "", "", "Submit", "Submit", ⟨20, 30, 50, 20⟩,
            "inline-block", "visible", "1"⟩,
          ⟨"a", [("href", "/home")], [], "", "", "", "Home", "Home", ⟨0, 60, 100, 20⟩,
            "none", "visible", "1"⟩,
          ⟨"span", [("onclick", "go()")], [], "", "", "", "", "", ⟨5, 5, 5, 5⟩,
            "inline", "visible", "1"⟩] =
      [⟨0, "button", "button", "Submit", "button", ⟨20, 30, 50, 20⟩, []⟩] := by
  constructor
  · intro vp cands e hmem hx
    exact annotateGo_erase_skipped vp e (skipElement_of_excluded vp e hx) cands 0 hmem
  · have hbtn : skipElement ⟨1280, 720⟩
        ⟨"button", [], [], "", "", "", "Submit", "Submit", ⟨20, 30, 50, 20⟩,
          "inline-block", "visible", "1"⟩ = false := by
      norm_num [skipElement, hiddenSkip, outsideSkip, smallSkip, Rect.bottom, Rect.right]
      decide
    have hlnk : skipElement ⟨1280, 720⟩
        ⟨"a", [("href", "/home")], [], "", "", "", "Home", "Home", ⟨0, 60, 100, 20⟩,
          "none", "visible", "1"⟩ = true := by
      norm_num [skipElement, hiddenSkip, outsideSkip, smallSkip, Rect.bottom, Rect.right]
    have hicn : skipElement ⟨1280, 720⟩
        ⟨"span", [("onclick", "go()")], [], "", "", "", "", "", ⟨5, 5, 5, 5⟩,
          "inline", "visible", "1"⟩ = true := by
      norm_num [skipElement, hiddenSkip, outsideSkip, smallSkip, Rect.bottom, Rect.right]
    have hto : toAnnotated
        ⟨"button", [], [], "", "", "", "Submit", "Submit", ⟨20, 30, 50, 20⟩,
          "inline-block", "visible", "1"⟩ 0 =
        ⟨0, "button", "button", "Submit", "button", ⟨20, 30, 50, 20⟩, []⟩ := by
      have h20 : jsRound (20 : ℚ) = 20 := by rw [jsRound]; norm_num
      have h30 : jsRound (30 : ℚ) = 30 := by rw [jsRound]; norm_num
      have h50 : jsRound (50 : ℚ) = 50 := by rw [jsRound]; norm_num
      simp only [toAnnotated]
      simp only [AnnotatedElement.mk.injEq, BoundingBox.mk.injEq]
      simp only [h20, h30, h50]
      decide
    simp only [annotateElements, annotateGo, hbtn, hlnk, hicn]
    simp [hto]

/-- C8, refuted as stated: a `select` element carrying `role="button"` is
classified `"button"` by the scan, while tag-name-first classification (the
claim's priority order, `specClassifyTagFirst`) yields `"select"` — so the
role attribute, not the tag name, wins here. -/
theorem claim_C8_tag_priority_refuted :
    classify ⟨"select", [("role", "button")], [], "", "", "", "", "",
        ⟨0, 0, 50, 20⟩, "block", "visible", "1"⟩ = "button"
    ∧ specClassifyTagFirst ⟨"select", [("role", "button")], [], "", "", "", "", "",
        ⟨0, 0, 50, 20⟩, "block", "visible", "1"⟩ = "select"
    ∧ ("button" : String) ≠ "select" := by
  refine ⟨by decide, by decide, by decide⟩

/-- C8 (amended): the scan classifies `a` by tag as `"link"` before anything
else; for every other tag, `role="button"` takes priority and forces
`"button"`; when the role attribute is not `"button"`, classification follows
the claimed tag-first order (`specClassifyTagFirst`): tag, then the `input`
type attribute, defaulting to `"clickable"`.  The result always lies in the
semantic type vocabulary. -/
theorem claim_C8_classification_priority (e : DomElement) :
    (e.tagName = "a" → classify e = "link")
    ∧ (e.tagName ≠ "a" → getAttr e "role" = some "button" → classify e = "button")
    ∧ (getAttr e "role" ≠ some "button" → classify e = specClassifyTagFirst e)
    ∧ classify e ∈ (["button", "link", "input", "select", "textarea", "checkbox",
        "radio", "submit", "file", "form", "clickable"] : List String) := by
  refine ⟨?_, ?_, ?_, ?_⟩
  · intro h
    simp [classify, h]
  · intro h1 h2
    simp [classify, h1, h2]
  · intro h
    simp [classify, specClassifyTagFirst, h]
  · rcases hT : getAttr e "type" with _ | t <;>
      · unfold classify
        simp only [hT]
        split_ifs <;> simp

/-- With a timer set at `t` and every later trigger arriving within the
debounce window of its predecessor, the pending timer is repeatedly cancelled
and rescheduled, and exactly one re-scan fires at the end. -/
theorem runTriggers_chain_one (t : Nat) :
    ∀ ts : List Nat,
      List.Chain' (fun a b => a ≤ b ∧ b < a + debounceDelay) (t :: ts) →
      runTriggers ts (some (t + debounceDelay)) = 1 := by
  intro ts
  induction ts generalizing t with
  | nil => intro _; rfl
  | cons u ts' ih =>
    intro hch
    rw [List.chain'_cons] at hch
    obtain ⟨⟨hle, hlt⟩, hch'⟩ := hch
    simp only [runTriggers, armDebounce]
    rw [if_neg (by omega)]
    simpa using ih u hch'

/-- C9: the in-page re-scan trigger keeps a single pending-timer slot —
arming while a timer is pending drops that timer and schedules a new one at
the fixed 200 ms delay — so a burst of trigger events whose consecutive gaps
stay inside the debounce window causes exactly one re-scan; in particular ten
rapid scroll events at times 0..9 fire exactly one re-scan. -/
theorem claim_C9_debounce_coalesces :
    (∀ (pending : Option Nat) (now : Nat),
        armDebounce pending now = some (now + debounceDelay))
    ∧ (∀ ts : List Nat, ts ≠ [] →
        List.Chain' (fun a b => a ≤ b ∧ b < a + debounceDelay) ts →
        runTriggers ts none = 1)
    ∧ runTriggers [0, 1, 2, 3, 4, 5, 6, 7, 8, 9] none = 1 := by
  refine ⟨fun _ _ => rfl, ?_, by decide⟩
  intro ts hne hch
  match ts, hne with
  | t :: ts', _ =>
    have := runTriggers_chain_one t ts' hch
    simpa [runTriggers, armDebounce] using this

/-- The auto-annotation flag plays no part in session consistency. -/
theorem sessionOK_setAuto (st : SessionState) (w : World) (b : Bool) :
    sessionOK { st with autoAnnotationEnabled := b } w = sessionOK st w := by
  cases st
  rfl

/-- Whatever already went wrong, the catch block of `ensureBrowser` always
ends in an observable session shape: cleared, a freshly connected browser
with no page yet, or a consistent browser-and-page pair. -/
theorem ensureCatch_sessionOK (env : EnsureEnv) (settings : BrowserSettings)
    (st : SessionState) (w : World) (acts : List Action) :
    sessionOK (ensureCatch env settings st w acts).st
      (ensureCatch env settings st w acts).world = true := by
  cases hb : st.browser <;>
    by_cases hl2 : env.launch2Ok <;>
    by_cases hc2 : env.ctx2Ok <;>
    by_cases ha2 : env.attach2Ok <;>
    simp [ensureCatch, hb, hl2, hc2, ha2, sessionOK, consistentB, clearedB,
      launchedNoPageB, resetBrowserState, isConnectedW, pageClosedW, launchW,
      newPageW, closeBrowserW]

/-- The page-validity check keeps the session observable when the stored
browser is connected. -/
theorem checkPage_sessionOK (env : EnsureEnv) (settings : BrowserSettings)
    (st : SessionState) (w : World) (acts : List Action) (h : Nat)
    (hb : st.browser = some h) (hc : isConnectedW w h = true) :
    sessionOK (checkPage env settings st w acts).st
      (checkPage env settings st w acts).world = true := by
  have hc' : h ∈ w.connected := by simpa [isConnectedW] using hc
  cases hp : st.page with
  | none =>
    cases hf : env.freshPageOk with
    | false =>
      simp only [checkPage, hb, hp, hf]
      simp [ensureCatch_sessionOK]
    | true =>
      simp only [checkPage, hb, hp, hf]
      simp [sessionOK, consistentB, clearedB, launchedNoPageB, isConnectedW,
        pageClosedW, newPageW, hc']
  | some p =>
    cases hcl : pageClosedW w p with
    | true =>
      cases hf : env.freshPageOk with
      | false =>
        simp only [checkPage, hb, hp, hcl, hf]
        simp [ensureCatch_sessionOK]
      | true =>
        simp only [checkPage, hb, hp, hcl, hf]
        simp [sessionOK, consistentB, clearedB, launchedNoPageB, isConnectedW,
          pageClosedW, newPageW, hc']
    | false =>
      simp only [checkPage, hb, hp, hcl]
      simp [sessionOK, consistentB, hb, hp, hc, hcl]

/-- The fresh-launch path of `ensureBrowser` keeps the session observable. -/
theorem launchNew_sessionOK (env : EnsureEnv) (settings : BrowserSettings)
    (st : SessionState) (w : World) (acts : List Action)
    (hb : st.browser = none) :
    sessionOK (launchNew env settings st w acts).st
      (launchNew env settings st w acts).world = true := by
  by_cases hl : env.launch1Ok
  · by_cases hs : env.setup1Ok
    · simp [launchNew, hb, hl, hs, checkPage, launchW, newPageW, isConnectedW,
        pageClosedW, sessionOK, consistentB, clearedB, launchedNoPageB]
    · simp [launchNew, hb, hl, hs, ensureCatch_sessionOK]
  · simp [launchNew, hb, hl, ensureCatch_sessionOK]

/-- Whatever state `ensureBrowser` starts from and however the engine
behaves, the session it leaves behind is observable: consistent, cleared, or
a launched browser with no page. -/
theorem ensureBrowser_sessionOK (env : EnsureEnv) (settings : BrowserSettings)
    (st : SessionState) (w : World) :
    sessionOK (ensureBrowser env settings st w).st
      (ensureBrowser env settings st w).world = true := by
  cases hb : st.browser with
  | none =>
    have := launchNew_sessionOK env settings st w [] hb
    simpa [ensureBrowser, hb] using this
  | some h =>
    by_cases hc : isConnectedW w h
    · have := checkPage_sessionOK env settings st w [] h hb hc
      simpa [ensureBrowser, hb, hc] using this
    · have := launchNew_sessionOK env settings (resetBrowserState st)
        (closeBrowserW w h) [Action.closeBrowser h] (by simp [resetBrowserState])
      simpa [ensureBrowser, hb, hc] using this

/-- The routed handler (with the dispatcher's catch block) keeps an
observable session observable. -/
theorem runHandler_sessionOK (env : CallEnv) (name : String) (args : ToolArgs)
    (st : SessionState) (w : World) (acts : List Action)
    (hok : sessionOK st w = true) :
    sessionOK (runHandler env name args st w acts).st
      (runHandler env name args st w acts).world = true := by
  by_cases hsa : name = "playwright_set_auto_annotation"
  · simpa [runHandler, hsa, sessionOK_setAuto] using hok
  · cases ho : env.handlerOutcome with
    | ok b => simpa [runHandler, hsa, ho] using hok
    | error msg =>
      by_cases hbt : name ∈ BROWSER_TOOLS
      · by_cases hmm : matchesConnLoss msg = true
        · simp [runHandler, hsa, ho, hbt, hmm, sessionOK, consistentB, clearedB,
            launchedNoPageB, resetBrowserState]
        · simpa [runHandler, hsa, ho, hbt, hmm] using hok
      · simpa [runHandler, hsa, ho, hbt] using hok

/-- The pre-execution cleanup keeps an observable session observable. -/
theorem preCleanup_sessionOK (name : String) (st : SessionState) (w : World)
    (hok : sessionOK st w = true) :
    sessionOK (preCleanup name st w).1 (preCleanup name st w).2.1 = true := by
  cases hb : st.browser with
  | none => simpa [preCleanup, hb] using hok
  | some h =>
    cases hcn : isConnectedW w h with
    | false =>
      by_cases hbt : name ∈ BROWSER_TOOLS
      · simp [preCleanup, hb, hcn, hbt, sessionOK, consistentB, clearedB,
          launchedNoPageB, resetBrowserState]
      · simpa [preCleanup, hb, hcn, hbt] using hok
    | true => simpa [preCleanup, hb, hcn] using hok

/-- C2, refuted as stated: one single `playwright_navigate` call from a fully
cleared session, in an environment where the first launch attempt throws and
the retry throws at `newContext`, completes with the session neither
consistent (open page on a connected browser) nor cleared: the retry's
freshly launched browser handle 0 stays stored with no page. -/
theorem claim_C2_half_populated_state :
    let out := handleToolCall ⟨⟨false, true, true, true, false, true, "boom"⟩,
      Except.ok false, "ok"⟩ "playwright_navigate" ⟨BrowserType.chromium, true⟩
      ⟨none, none, BrowserType.chromium, true⟩ ⟨0, [], []⟩
    (consistentB out.st out.world || clearedB out.st) = false
    ∧ out.st.browser = some 0 ∧ out.st.page = none := by
  refine ⟨by decide, by decide, by decide⟩

/-- C2 (amended): for every sequence of tool calls dispatched through
`handleToolCall`, at the moment any call's result is returned the session
singleton is in one of three observable shapes: the stored page is non-null,
open and backed by a connected stored browser; or all session fields (browser
handle, page, engine variant) are cleared; or — after a browser acquisition
that failed twice, with the retry throwing after its launch — a freshly
launched connected browser is stored with no page.  No other half-populated
state (a page with a missing/disconnected browser, a browser with a closed
page) is observable after a call completes. -/
theorem claim_C2_session_states_observable (env : CallEnv) (name : String)
    (args : ToolArgs) (st : SessionState) (w : World)
    (hok : sessionOK st w = true) :
    sessionOK (handleToolCall env name args st w).st
      (handleToolCall env name args st w).world = true := by
  by_cases hcl : name = "playwright_close"
  · cases hb : st.browser with
    | none => simpa [handleToolCall, hcl, hb] using hok
    | some h =>
      cases hcn : isConnectedW w h <;>
        simp [handleToolCall, hcl, hb, hcn, sessionOK, consistentB, clearedB,
          launchedNoPageB, resetBrowserState]
  · by_cases hbt : name ∈ BROWSER_TOOLS
    · have h2 := ensureBrowser_sessionOK env.ensure (settingsOfArgs args)
        (preCleanup name st w).1 (preCleanup name st w).2.1
      cases he : (ensureBrowser env.ensure (settingsOfArgs args)
          (preCleanup name st w).1 (preCleanup name st w).2.1).res with
      | error e =>
        simpa [handleToolCall, hcl, hbt, he] using h2
      | ok p =>
        have h3 := runHandler_sessionOK env name args
          (ensureBrowser env.ensure (settingsOfArgs args)
            (preCleanup name st w).1 (preCleanup name st w).2.1).st
          (ensureBrowser env.ensure (settingsOfArgs args)
            (preCleanup name st w).1 (preCleanup name st w).2.1).world
          ((preCleanup name st w).2.2 ++ (ensureBrowser env.ensure (settingsOfArgs args)
            (preCleanup name st w).1 (preCleanup name st w).2.1).acts) h2
        simpa [handleToolCall, hcl, hbt, he] using h3
    · have hpc : preCleanup name st w = (st, w, []) := by
        cases hb : st.browser <;> simp [preCleanup, hb, hbt]
      simpa [handleToolCall, hcl, hbt, hpc] using
        runHandler_sessionOK env name args st w [] hok

/-- The amended C2 invariant, exercised at a concrete input: a successful
`playwright_navigate` from a cleared session ends in an observable state. -/
theorem claim_C2_session_states_observable_witness :
    sessionOK (handleToolCall ⟨⟨true, true, true, true, true, true, "e"⟩,
        Except.ok false, "ok"⟩ "playwright_navigate" ⟨BrowserType.chromium, true⟩
        ⟨none, none, BrowserType.chromium, true⟩ ⟨0, [], []⟩).st
      (handleToolCall ⟨⟨true, true, true, true, true, true, "e"⟩,
        Except.ok false, "ok"⟩ "playwright_navigate" ⟨BrowserType.chromium, true⟩
        ⟨none, none, BrowserType.chromium, true⟩ ⟨0, [], []⟩).world = true :=
  claim_C2_session_states_observable _ _ _ _ _ (by decide)

/-- With a connected browser and an open page stored, `ensureBrowser` is a
pure read: it returns the stored page and touches nothing. -/
theorem ensureBrowser_consistent_noop (env : EnsureEnv) (settings : BrowserSettings)
    (st : SessionState) (w : World) (h p : Nat)
    (hb : st.browser = some h) (hp : st.page = some p)
    (hc : isConnectedW w h = true) (ho : pageClosedW w p = false) :
    ensureBrowser env settings st w = ⟨Except.ok p, st, w, []⟩ := by
  simp [ensureBrowser, hb, hc, checkPage, hp, ho]

/-- C3: for a browser-dependent tool whose handler throws from a live
session: when the message contains one of the five connection-loss substrings
the dispatcher clears the session and returns a retryable error result saying
the state was reset; when it contains none of them, the session (and world)
are left exactly unchanged and the raw message comes back as the error
result. -/
theorem claim_C3_error_classification (env : CallEnv) (name : String)
    (args : ToolArgs) (st : SessionState) (w : World) (h p : Nat) (msg : String)
    (hb : st.browser = some h) (hp : st.page = some p)
    (hc : isConnectedW w h = true) (ho : pageClosedW w p = false)
    (hbt : name ∈ BROWSER_TOOLS)
    (hcl : name ≠ "playwright_close")
    (hsa : name ≠ "playwright_set_auto_annotation")
    (herr : env.handlerOutcome = Except.error msg) :
    (matchesConnLoss msg = true →
        handleToolCall env name args st w =
          ⟨⟨"Browser connection error: " ++ msg
              ++ ". Browser state has been reset, please try again.", true⟩,
            resetBrowserState st, w, []⟩)
    ∧ (matchesConnLoss msg = false →
        handleToolCall env name args st w = ⟨⟨msg, true⟩, st, w, []⟩) := by
  have hpc : preCleanup name st w = (st, w, []) := by simp [preCleanup, hb, hc]
  have heb : ensureBrowser env.ensure (settingsOfArgs args) st w =
      ⟨Except.ok p, st, w, []⟩ :=
    ensureBrowser_consistent_noop env.ensure (settingsOfArgs args) st w h p hb hp hc ho
  constructor
  · intro hm
    simp [handleToolCall, hcl, hbt, hpc, heb, runHandler, hsa, herr, hm]
  · intro hm
    simp [handleToolCall, hcl, hbt, hpc, heb, runHandler, hsa, herr, hm]

/-- C3 exercised at a concrete input: a thrown `"Target closed"` from
`playwright_click` on a live session resets the state and reports a
retryable error. -/
theorem claim_C3_error_classification_witness :
    (matchesConnLoss "Target closed" = true →
        handleToolCall ⟨⟨true, true, true, true, true, true, "e"⟩,
            Except.error "Target closed", "x"⟩ "playwright_click"
            ⟨BrowserType.chromium, true⟩
            ⟨some 0, some 1, BrowserType.chromium, true⟩ ⟨2, [0], [(1, 0)]⟩ =
          ⟨⟨"Browser connection error: " ++ "Target closed"
              ++ ". Browser state has been reset, please try again.", true⟩,
            resetBrowserState ⟨some 0, some 1, BrowserType.chromium, true⟩,
            ⟨2, [0], [(1, 0)]⟩, []⟩)
    ∧ (matchesConnLoss "Target closed" = false →
        handleToolCall ⟨⟨true, true, true, true, true, true, "e"⟩,
            Except.error "Target closed", "x"⟩ "playwright_click"
            ⟨BrowserType.chromium, true⟩
            ⟨some 0, some 1, BrowserType.chromium, true⟩ ⟨2, [0], [(1, 0)]⟩ =
          ⟨⟨"Target closed", true⟩, ⟨some 0, some 1, BrowserType.chromium, true⟩,
            ⟨2, [0], [(1, 0)]⟩, []⟩) :=
  claim_C3_error_classification
    ⟨⟨true, true, true, true, true, true, "e"⟩, Except.error "Target closed", "x"⟩
    "playwright_click" ⟨BrowserType.chromium, true⟩
    ⟨some 0, some 1, BrowserType.chromium, true⟩ ⟨2, [0], [(1, 0)]⟩ 0 1
    "Target closed" rfl rfl (by decide) (by decide) (by decide) (by decide)
    (by decide) rfl

/-- The catch block's trace discipline: it makes exactly one further launch
attempt, and it best-effort closes any stored browser before that attempt
(no close happens when no browser is stored). -/
theorem ensureCatch_trace (env : EnsureEnv) (settings : BrowserSettings)
    (st : SessionState) (w : World) (acts : List Action) :
    ((ensureCatch env settings st w acts).acts.countP isLaunchAttemptA
        = acts.countP isLaunchAttemptA + 1)
    ∧ (∀ h : Nat, st.browser = some h →
        List.isPrefixOf
          (acts ++ [Action.closeBrowser h, Action.launchAttempt settings.browserType])
          (ensureCatch env settings st w acts).acts = true)
    ∧ (st.browser = none →
        List.isPrefixOf (acts ++ [Action.launchAttempt settings.browserType])
          (ensureCatch env settings st w acts).acts = true) := by
  cases hb : st.browser <;>
    cases hl2 : env.launch2Ok <;> cases hc2 : env.ctx2Ok <;> cases ha2 : env.attach2Ok <;>
    refine ⟨?_, ?_, ?_⟩ <;>
    simp [ensureCatch, hb, hl2, hc2, ha2, isLaunchAttemptA, List.countP_append,
      List.countP_cons, List.isPrefixOf_iff_prefix, List.prefix_append_right_inj]



/-- C4, refuted as stated: when the first acquisition attempt fails at the
launch and the retry throws at `newContext`, the dispatcher does return the
structured `Failed to initialize browser` result — but the session is NOT
left cleared: the retry's freshly launched browser handle 0 remains
stored. -/
theorem claim_C4_session_not_cleared :
    let out := handleToolCall ⟨⟨false, true, true, true, false, true, "boom"⟩,
      Except.ok false, "ok"⟩ "playwright_navigate" ⟨BrowserType.chromium, true⟩
      ⟨none, none, BrowserType.chromium, true⟩ ⟨0, [], []⟩
    out.result = ⟨"Failed to initialize browser: " ++ "boom"
        ++ ". Please try again.", true⟩
    ∧ out.st.browser = some 0 ∧ clearedB out.st = false := by
  refine ⟨by decide, by decide, by decide⟩

/-- C4 (amended): an exception during acquisition sends `ensureBrowser` into
its catch block, which best-effort closes any stored browser before making
exactly one retry launch attempt from a cleared session; a first attempt
failing at launch from an empty session yields exactly two launch attempts
in total.  When the retry also throws, the error propagates to the
dispatcher, which returns a structured `isError` result carrying the message
and inviting retry rather than throwing; the session is left cleared when
the retry failed at its launch, but when the retry threw after its launch
succeeded (e.g. at `newContext`) the freshly launched browser handle remains
stored with no page. -/
theorem claim_C4_acquisition_retry (env : CallEnv) (name : String)
    (args : ToolArgs) (st : SessionState) (w : World)
    (hbt : name ∈ BROWSER_TOOLS) (hcl : name ≠ "playwright_close")
    (hb : st.browser = none) (hl1 : env.ensure.launch1Ok = false) :
    ((ensureBrowser env.ensure (settingsOfArgs args) st w).acts.countP
        isLaunchAttemptA = 2)
    ∧ (∀ (st2 : SessionState) (w2 : World) (acts2 : List Action) (h : Nat),
        st2.browser = some h →
        List.isPrefixOf
          (acts2 ++ [Action.closeBrowser h, Action.launchAttempt args.browserType])
          (ensureCatch env.ensure (settingsOfArgs args) st2 w2 acts2).acts = true)
    ∧ (env.ensure.launch2Ok = false →
        handleToolCall env name args st w =
          ⟨⟨"Failed to initialize browser: " ++ env.ensure.errMsg
              ++ ". Please try again.", true⟩,
            resetBrowserState st, w,
            [Action.launchAttempt args.browserType,
              Action.launchAttempt args.browserType]⟩)
    ∧ (env.ensure.launch2Ok = true → env.ensure.ctx2Ok = false →
        (handleToolCall env name args st w).result =
          ⟨"Failed to initialize browser: " ++ env.ensure.errMsg
              ++ ". Please try again.", true⟩
        ∧ (handleToolCall env name args st w).st.browser = some w.nextId
        ∧ (handleToolCall env name args st w).st.page = none) := by
  have heb : ensureBrowser env.ensure (settingsOfArgs args) st w =
      ensureCatch env.ensure (settingsOfArgs args) st w
        [Action.launchAttempt args.browserType] := by
    simp [ensureBrowser, hb, launchNew, hl1, settingsOfArgs]
  have hpc : preCleanup name st w = (st, w, []) := by simp [preCleanup, hb]
  refine ⟨?_, ?_, ?_, ?_⟩
  · rw [heb, (ensureCatch_trace env.ensure (settingsOfArgs args) st w
      [Action.launchAttempt args.browserType]).1]
    simp [isLaunchAttemptA]
  · intro st2 w2 acts2 h hb2
    exact (ensureCatch_trace env.ensure (settingsOfArgs args) st2 w2 acts2).2.1 h hb2
  · intro hl2
    have hcat : ensureCatch env.ensure (settingsOfArgs args) st w
        [Action.launchAttempt args.browserType] =
        ⟨Except.error env.ensure.errMsg, resetBrowserState st, w,
          [Action.launchAttempt args.browserType,
            Action.launchAttempt args.browserType]⟩ := by
      simp [ensureCatch, hb, hl2, settingsOfArgs, resetBrowserState]
    simp [handleToolCall, hcl, hbt, hpc, heb, hcat, resetBrowserState]
  · intro hl2 hc2
    have hcat : ensureCatch env.ensure (settingsOfArgs args) st w
        [Action.launchAttempt args.browserType] =
        ⟨Except.error env.ensure.errMsg,
          { browser := some w.nextId, page := none,
            currentBrowserType := args.browserType,
            autoAnnotationEnabled := st.autoAnnotationEnabled },
          { nextId := w.nextId + 1, connected := w.nextId :: w.connected,
            openPages := w.openPages },
          [Action.launchAttempt args.browserType,
            Action.launchAttempt args.browserType,
            Action.launched w.nextId args.browserType]⟩ := by
      simp [ensureCatch, hb, hl2, hc2, settingsOfArgs, launchW, resetBrowserState]
    simp [handleToolCall, hcl, hbt, hpc, heb, hcat]

/-- The amended C4, exercised at a concrete input where both the first
attempt and the retry's launch fail. -/
theorem claim_C4_acquisition_retry_witness :
    ((ensureBrowser ⟨false, true, true, false, true, true, "boom"⟩
        (settingsOfArgs ⟨BrowserType.chromium, true⟩)
        ⟨none, none, BrowserType.chromium, true⟩ ⟨0, [], []⟩).acts.countP
        isLaunchAttemptA = 2)
    ∧ (∀ (st2 : SessionState) (w2 : World) (acts2 : List Action) (h : Nat),
        st2.browser = some h →
        List.isPrefixOf
          (acts2 ++ [Action.closeBrowser h, Action.launchAttempt BrowserType.chromium])
          (ensureCatch ⟨false, true, true, false, true, true, "boom"⟩
            (settingsOfArgs ⟨BrowserType.chromium, true⟩) st2 w2 acts2).acts = true)
    ∧ ((false : Bool) = false →
        handleToolCall ⟨⟨false, true, true, false, true, true, "boom"⟩,
            Except.ok false, "ok"⟩ "playwright_navigate"
            ⟨BrowserType.chromium, true⟩
            ⟨none, none, BrowserType.chromium, true⟩ ⟨0, [], []⟩ =
          ⟨⟨"Failed to initialize browser: " ++ "boom" ++ ". Please try again.",
              true⟩,
            resetBrowserState ⟨none, none, BrowserType.chromium, true⟩, ⟨0, [], []⟩,
            [Action.launchAttempt BrowserType.chromium,
              Action.launchAttempt BrowserType.chromium]⟩)
    ∧ ((false : Bool) = true → (true : Bool) = false →
        (handleToolCall ⟨⟨false, true, true, false, true, true, "boom"⟩,
            Except.ok false, "ok"⟩ "playwright_navigate"
            ⟨BrowserType.chromium, true⟩
            ⟨none, none, BrowserType.chromium, true⟩ ⟨0, [], []⟩).result =
          ⟨"Failed to initialize browser: " ++ "boom" ++ ". Please try again.",
            true⟩
        ∧ (handleToolCall ⟨⟨false, true, true, false, true, true, "boom"⟩,
            Except.ok false, "ok"⟩ "playwright_navigate"
            ⟨BrowserType.chromium, true⟩
            ⟨none, none, BrowserType.chromium, true⟩ ⟨0, [], []⟩).st.browser =
            some 0
        ∧ (handleToolCall ⟨⟨false, true, true, false, true, true, "boom"⟩,
            Except.ok false, "ok"⟩ "playwright_navigate"
            ⟨BrowserType.chromium, true⟩
            ⟨none, none, BrowserType.chromium, true⟩ ⟨0, [], []⟩).st.page = none) :=
  claim_C4_acquisition_retry
    ⟨⟨false, true, true, false, true, true, "boom"⟩, Except.ok false, "ok"⟩
    "playwright_navigate" ⟨BrowserType.chromium, true⟩
    ⟨none, none, BrowserType.chromium, true⟩ ⟨0, [], []⟩
    (by decide) (by decide) rfl rfl


end PwSec
